import Mathlib

/-!
Shallow embedding of the nest-book-app repository: the user/book data model,
the users, auth and books services, and the controller layers, together with
theorems checking the specification's claims against this embedding.

Conventions of the embedding:
* TypeScript exceptions become an `Exc` sum type; fallible operations return
  `Except Exc α`.
* The relational stores become explicit `List User` / `List Book` values;
  `repository.save` on an existing row is replacement by primary key,
  `save` on a fresh row is an append with a caller-supplied fresh id.
* `Partial<T>` payloads become structures of `Option` fields; JavaScript
  `Object.assign` becomes a field-wise merge that overwrites exactly the
  supplied fields.
* JavaScript string truthiness (`if (query.title)`) is modelled by
  `truthyOptStr`: absent or empty means falsy.
* bcrypt and JWT primitives are external collaborators, passed in as
  opaque function parameters.
-/

namespace WookieBooks

/-- JavaScript truthiness of an optional string: `undefined` and `""` are falsy. -/
def truthyOptStr : Option String → Bool
  | none => false
  | some s => !s.isEmpty

/-- Character-list version of "starts with". -/
def charsHasPrefx : List Char → List Char → Bool
  | [], _ => true
  | _ :: _, [] => false
  | a :: as, b :: bs => a == b && charsHasPrefx as bs

/-- Character-list version of "contains as a contiguous run". -/
def charsHasSub (needle : List Char) : List Char → Bool
  | [] => needle.isEmpty
  | h :: t => charsHasPrefx needle (h :: t) || charsHasSub needle t

/-- SQL `LIKE '%needle%'` over the embedded strings. -/
def strContainsSub (hay needle : String) : Bool :=
  charsHasSub needle.data hay.data

/-- User entity (src/users/user.entity.ts): id, unique username, password
digest column, author pseudonym. The `books` relation is represented on the
book side. -/
structure User where
  id : Nat
  username : String
  password : String
  authorPseudonym : String
  deriving Repr, DecidableEq

/-- Book entity (book.entity.ts): id, title, description, cover image, decimal
price, publication flag (column default `true`), many-to-one author relation
which may be null/dangling. -/
structure Book where
  id : Nat
  title : String
  description : String
  coverImage : String
  price : Int
  isPublished : Bool
  author : Option User
  deriving Repr, DecidableEq

/-- The NestJS exception classes used by the repository. -/
inductive Exc where
  | BadRequestException (msg : String)
  | NotFoundException (msg : String)
  | UnauthorizedException (msg : String)
  | ForbiddenException (msg : String)
  | InternalServerErrorException (msg : String)
  deriving Repr, DecidableEq

/-- `Partial<User>` payload: each column optionally supplied. -/
structure UserPatch where
  username : Option String := none
  password : Option String := none
  authorPseudonym : Option String := none
  deriving Repr, DecidableEq

/-- `Partial<Book>` payload (non-key columns): each column optionally supplied. -/
structure BookPatch where
  title : Option String := none
  description : Option String := none
  coverImage : Option String := none
  price : Option Int := none
  isPublished : Option Bool := none
  author : Option User := none
  deriving Repr, DecidableEq

/-- `usersRepository.findOne({ where: { id } })`. -/
def findUserById (users : List User) (id : Nat) : Option User :=
  users.find? (fun u => u.id == id)

/-- `booksRepository.findOne({ where: { id }, relations: ['author'] })`. -/
def findBookById (books : List Book) (id : Nat) : Option Book :=
  books.find? (fun b => b.id == id)

/-- `Object.assign(user, updateData)`: overwrite exactly the supplied columns. -/
def mergeUser (u : User) (p : UserPatch) : User :=
  { id := u.id
    username := p.username.getD u.username
    password := p.password.getD u.password
    authorPseudonym := p.authorPseudonym.getD u.authorPseudonym }

/-- `Object.assign(book, bookData)`: overwrite exactly the supplied columns,
including the author relation when the payload carries one. -/
def mergeBook (b : Book) (p : BookPatch) : Book :=
  { id := b.id
    title := p.title.getD b.title
    description := p.description.getD b.description
    coverImage := p.coverImage.getD b.coverImage
    price := p.price.getD b.price
    isPublished := p.isPublished.getD b.isPublished
    author := match p.author with
      | some u => some u
      | none => b.author }

/-- `booksRepository.save(b)` on an existing row: replace the row with `b`'s
primary key. -/
def saveBook (books : List Book) (b : Book) : List Book :=
  books.map (fun x => if x.id == b.id then b else x)

/-- `usersRepository`-side row replacement by primary key. -/
def saveUser (users : List User) (u : User) : List User :=
  users.map (fun x => if x.id == u.id then u else x)

namespace UsersService

/-- UsersService.create (users.service.ts 27-41): rejects a missing/empty
username or password with BadRequest, otherwise persists the user with
`password := bcrypt.hash(password, 10)` and pseudonym as supplied. -/
def create (bcryptHash : String → String) (users : List User) (newId : Nat)
    (user : UserPatch) : Except Exc (User × List User) :=
  if !truthyOptStr user.username || !truthyOptStr user.password then
    .error (.BadRequestException "Username and password are required")
  else
    let u : User :=
      { id := newId
        username := user.username.getD ""
        password := bcryptHash (user.password.getD "")
        authorPseudonym := user.authorPseudonym.getD "" }
    .ok (u, users ++ [u])

/-- UsersService.update (users.service.ts 92-108): NotFound when the id does
not resolve; otherwise `usersRepository.update(id, updateData)` writes the
supplied columns verbatim (no hashing) and the refreshed row is returned. -/
def update (users : List User) (id : Nat) (updateData : UserPatch) :
    Except Exc (User × List User) :=
  match findUserById users id with
  | none => .error (.NotFoundException "User not found")
  | some existingUser =>
    let updated := mergeUser existingUser updateData
    .ok (updated, saveUser users updated)

end UsersService

/-- Public view of a user: every column except the password digest
(`const { password, ...result } = user`). -/
structure PublicUser where
  id : Nat
  username : String
  authorPseudonym : String
  deriving Repr, DecidableEq

def publicOf (u : User) : PublicUser :=
  { id := u.id, username := u.username, authorPseudonym := u.authorPseudonym }

namespace AuthService

/-- AuthService.validateUser (auth.service.ts 22-44): look up by username;
throw Unauthorized("Invalid username or password") when absent; otherwise
check `bcrypt.compare(pass, user.password)` and throw the same
Unauthorized("Invalid username or password") when it fails; on success return
the user without the password field. `bcryptCompare` is the external
collaborator. -/
def validateUser (bcryptCompare : String → String → Bool) (users : List User)
    (username pass : String) : Except Exc PublicUser :=
  match users.find? (fun u => u.username == username) with
  | none => .error (.UnauthorizedException "Invalid username or password")
  | some user =>
    if bcryptCompare pass user.password then
      .ok (publicOf user)
    else
      .error (.UnauthorizedException "Invalid username or password")

end AuthService

/-- Book catalog query parameters as received on GET /books. `minPrice` and
`maxPrice` are modelled post-`parseFloat`, present exactly when the raw query
string parameter is truthy. -/
structure BookQuery where
  title : Option String := none
  authorPseudonym : Option String := none
  isPublished : Option String := none
  minPrice : Option Int := none
  maxPrice : Option Int := none
  deriving Repr, DecidableEq

namespace BooksService

/-- BooksService.findAll (books.service.ts 245-260): with a truthy search term,
exact-match on title OR description regardless of publication flag; otherwise
only rows with `isPublished = true`. -/
def findAll (books : List Book) (search : Option String) : List Book :=
  if truthyOptStr search then
    books.filter (fun b => b.title == search.getD "" || b.description == search.getD "")
  else
    books.filter (fun b => b.isPublished)

/-- The conjunction of WHERE clauses that BooksService.findAllWithFilters
(books.service.ts 267-298) adds: a `LIKE %title%` clause when `query.title` is
truthy; an author-non-null plus `LIKE %authorPseudonym%` clause when
`query.authorPseudonym` is truthy; `isPublished = (query.isPublished === 'true')`
when the parameter is present at all; and `price BETWEEN minPrice AND maxPrice`
only when both bounds are truthy. -/
def matchesFilters (q : BookQuery) (b : Book) : Bool :=
  (if truthyOptStr q.title then strContainsSub b.title (q.title.getD "") else true)
  && (if truthyOptStr q.authorPseudonym then
        (match b.author with
         | some a => strContainsSub a.authorPseudonym (q.authorPseudonym.getD "")
         | none => false)
      else true)
  && (match q.isPublished with
      | some s => b.isPublished == (s == "true")
      | none => true)
  && (match q.minPrice, q.maxPrice with
      | some m, some M => decide (m ≤ b.price) && decide (b.price ≤ M)
      | _, _ => true)

/-- BooksService.findAllWithFilters: the query-builder conjunction evaluated
over the book store (left join keeps authorless rows in scope; each returned
row carries its resolved author). -/
def findAllWithFilters (books : List Book) (q : BookQuery) : List Book :=
  books.filter (matchesFilters q)

/-- BooksService.create (books.service.ts 332-350): resolve the acting user's
row by id — NotFound if it no longer exists; Forbidden for the resolved
username "Darth Vader"; otherwise build the book from the payload with the
resolved user as author (publication flag defaults to the column default
`true`) and save it as a fresh row. -/
def create (users : List User) (books : List Book) (newId : Nat) (user : User)
    (bookData : BookPatch) : Except Exc (Book × List Book) :=
  match findUserById users user.id with
  | none => .error (.NotFoundException "Author not found")
  | some author =>
    if author.username = "Darth Vader" then
      .error (.ForbiddenException "Darth Vader is not allowed to publish Wookie books.")
    else
      let book : Book :=
        { id := newId
          title := bookData.title.getD ""
          description := bookData.description.getD ""
          coverImage := bookData.coverImage.getD ""
          price := bookData.price.getD 0
          isPublished := bookData.isPublished.getD true
          author := some author }
      .ok (book, books ++ [book])

/-- BooksService.update (books.service.ts 359-379): NotFound when the book id
does not resolve; Unauthorized when the loaded book has no author or its
author's id differs from the acting user's; otherwise
`Object.assign(book, bookData)` and save. -/
def update (books : List Book) (user : User) (id : Nat) (bookData : BookPatch) :
    Except Exc (Book × List Book) :=
  match findBookById books id with
  | none => .error (.NotFoundException "Book not found")
  | some book =>
    match book.author with
    | none => .error (.UnauthorizedException "You are not authorized to update this book")
    | some a =>
      if a.id ≠ user.id then
        .error (.UnauthorizedException "You are not authorized to update this book")
      else
        let merged := mergeBook book bookData
        .ok (merged, saveBook books merged)

/-- BooksService.remove (books.service.ts 387-407): same existence and
ownership checks as update; on success sets `isPublished := false` and saves —
the row is never physically removed. -/
def remove (books : List Book) (user : User) (id : Nat) :
    Except Exc (Book × List Book) :=
  match findBookById books id with
  | none => .error (.NotFoundException "Book not found")
  | some book =>
    match book.author with
    | none => .error (.UnauthorizedException "You are not authorized to unpublish this book")
    | some a =>
      if a.id ≠ user.id then
        .error (.UnauthorizedException "You are not authorized to unpublish this book")
      else
        let b := { book with isPublished := false }
        .ok (b, saveBook books b)

end BooksService

/-- CreateBookDto (books controller file, lines 430-450): required title and
price, optional description and cover image. -/
structure CreateBookDto where
  title : String
  description : Option String := none
  price : Int
  coverImage : Option String := none
  deriving Repr, DecidableEq

/-- UpdateBookDto (books controller file, lines 453-473): optional title,
description, price and cover image — no author and no publication-flag field. -/
structure UpdateBookDto where
  title : Option String := none
  description : Option String := none
  price : Option Int := none
  coverImage : Option String := none
  deriving Repr, DecidableEq

/-- the payload a CreateBookDto body contributes to `Partial<Book>`. -/
def createDtoToPatch (d : CreateBookDto) : BookPatch :=
  { title := some d.title
    description := d.description
    price := some d.price
    coverImage := d.coverImage }

/-- the payload an UpdateBookDto body contributes to `Partial<Book>`. -/
def updateDtoToPatch (d : UpdateBookDto) : BookPatch :=
  { title := d.title
    description := d.description
    price := d.price
    coverImage := d.coverImage }

namespace BooksController

/-- BooksController.create (books controller file, lines 537-550): BadRequest
when `req.user` is absent, then delegate to BooksService.create; the catch
block wraps EVERY thrown exception — its own BadRequest and the service's
NotFound/Forbidden included — into
InternalServerError("An error occurred while creating the book"). -/
def create (users : List User) (books : List Book) (newId : Nat)
    (reqUser : Option User) (dto : CreateBookDto) : Except Exc (Book × List Book) :=
  let inner : Except Exc (Book × List Book) :=
    match reqUser with
    | none => .error (.BadRequestException "Invalid user")
    | some u => BooksService.create users books newId u (createDtoToPatch dto)
  match inner with
  | .ok r => .ok r
  | .error _ => .error (.InternalServerErrorException "An error occurred while creating the book")

/-- BooksController.update (books controller file, lines 563-593): BadRequest
for a falsy id or missing `req.user`, then delegate to BooksService.update;
the catch block rethrows BadRequest and NotFound unchanged and wraps every
other exception — Unauthorized included — into
InternalServerError("An error occurred while updating the book"). -/
def update (books : List Book) (reqUser : Option User) (id : Nat)
    (dto : UpdateBookDto) : Except Exc (Book × List Book) :=
  let inner : Except Exc (Book × List Book) :=
    if id = 0 then .error (.BadRequestException "Invalid book ID")
    else match reqUser with
      | none => .error (.BadRequestException "Invalid user")
      | some u => BooksService.update books u id (updateDtoToPatch dto)
  match inner with
  | .ok r => .ok r
  | .error (.BadRequestException m) => .error (.BadRequestException m)
  | .error (.NotFoundException m) => .error (.NotFoundException m)
  | .error _ => .error (.InternalServerErrorException "An error occurred while updating the book")

end BooksController

/-- CreateUserDto (users.controller.ts 21-37): required username and password. -/
structure CreateUserDto where
  username : String
  password : String
  deriving Repr, DecidableEq

namespace UsersController

/-- UsersController.createUser (users.controller.ts 81-92): delegates to
UsersService.create with `authorPseudonym` defaulted to the username; the
catch block wraps every exception into
InternalServerError("An error occurred while creating the user"). -/
def createUser (bcryptHash : String → String) (users : List User) (newId : Nat)
    (dto : CreateUserDto) : Except Exc (User × List User) :=
  match UsersService.create bcryptHash users newId
      { username := some dto.username
        password := some dto.password
        authorPseudonym := some dto.username } with
  | .ok r => .ok r
  | .error _ => .error (.InternalServerErrorException "An error occurred while creating the user")

end UsersController

/-- Modelled from the spec: the `JwtStrategy` guard class
(src/auth/jwt.strategy.ts) that `@UseGuards(JwtStrategy)` applies to every
route of UsersController is not among the provided source files. Per spec §4.2
the Request Authenticator requires an `Authorization: Bearer <token>` header —
absence or a malformed prefix fails with Unauthenticated before any handler
logic runs — and a token the Token Service rejects also fails with
Unauthenticated; the in-repo JwtMiddleware implements the same contract with
these messages. `jwtVerify` is the Token Service collaborator, returning the
claims' subject id. -/
def jwtStrategyGuard (jwtVerify : String → Option Nat) (authHeader : Option String) :
    Except Exc Nat :=
  match authHeader with
  | none => .error (.UnauthorizedException "Authorization token is missing or invalid")
  | some h =>
    if charsHasPrefx "Bearer ".data h.data then
      match jwtVerify (h.drop 7) with
      | some sub => .ok sub
      | none => .error (.UnauthorizedException "Invalid or expired token")
    else
      .error (.UnauthorizedException "Authorization token is missing or invalid")

/-- POST /users as routed: the class-level `@UseGuards(JwtStrategy)` on
UsersController (users.controller.ts 69-70) runs the guard before the
createUser handler. -/
def postUsersRoute (jwtVerify : String → Option Nat) (bcryptHash : String → String)
    (users : List User) (newId : Nat) (authHeader : Option String)
    (dto : CreateUserDto) : Except Exc (User × List User) :=
  match jwtStrategyGuard jwtVerify authHeader with
  | .error e => .error e
  | .ok _ => UsersController.createUser bcryptHash users newId dto

/-! Concrete fixtures used to evaluate the embedded operations. -/

/-- stand-in for the bcrypt hash collaborator in concrete evaluations. -/
def demoHash : String → String := fun s => "bcrypt$" ++ s

/-- stand-in for `bcrypt.compare` consistent with `demoHash`. -/
def demoCompare : String → String → Bool := fun pass digest => digest == demoHash pass

def vader : User := { id := 1, username := "Darth Vader", password := "bcrypt$dv", authorPseudonym := "Darth Vader" }

def luke : User := { id := 2, username := "Luke", password := "bcrypt$ls", authorPseudonym := "Master Luke" }

def demoUsers : List User := [vader, luke]

def demoCreateDto : CreateBookDto := { title := "The Dark Side", price := 20 }

def lukeBook : Book :=
  { id := 7, title := "The Dark Side", description := "", coverImage := ""
    price := 20, isPublished := true, author := some luke }

def userA : User := { id := 1, username := "usera", password := "bcrypt$pa", authorPseudonym := "A" }

def userB : User := { id := 2, username := "userb", password := "bcrypt$pb", authorPseudonym := "B" }

def bookOne : Book :=
  { id := 1, title := "Old Title", description := "Desc", coverImage := "img"
    price := 20, isPublished := true, author := some userA }

def bookOneRetitled : Book :=
  { id := 1, title := "New Title", description := "Desc", coverImage := "img"
    price := 20, isPublished := true, author := some userA }

def bookOneReauthored : Book :=
  { id := 1, title := "Old Title", description := "Desc", coverImage := "img"
    price := 20, isPublished := true, author := some userB }

def titleDto : UpdateBookDto := { title := some "New Title" }

def bob : User := { id := 1, username := "bob", password := "bcrypt$pw0", authorPseudonym := "bob" }

def emptyQuery : BookQuery := {}

def pubBook : Book :=
  { id := 1, title := "Pub", description := "d", coverImage := "c"
    price := 10, isPublished := true, author := some userA }

def unpubBook : Book :=
  { id := 2, title := "Unpub", description := "d", coverImage := "c"
    price := 12, isPublished := false, author := some userA }

def orphanBook : Book :=
  { id := 3, title := "Orphan", description := "d", coverImage := "c"
    price := 9, isPublished := true, author := none }

def bookPriced (id : Nat) (price : Int) : Book :=
  { id := id, title := "B", description := "d", coverImage := "c"
    price := price, isPublished := true, author := some userA }

def priceCatalog : List Book :=
  [bookPriced 1 5, bookPriced 2 15, bookPriced 3 25, bookPriced 4 35]

/-! Helper lemmas about the store operations. -/

theorem findBookById_id_eq {books : List Book} {id : Nat} {book : Book}
    (h : findBookById books id = some book) : book.id = id := by
  have hp := List.find?_some h
  simpa using hp

theorem findBookById_saveBook_self {books : List Book} {id : Nat} {book b1 : Book}
    (h : findBookById books id = some book) (hid : b1.id = book.id) :
    findBookById (saveBook books b1) id = some b1 := by
  have hbid : book.id = id := findBookById_id_eq h
  have hb1 : b1.id = id := hid.trans hbid
  induction books with
  | nil => simp [findBookById] at h
  | cons x xs ih =>
    cases hx : (x.id == id) with
    | true =>
      have hxeq : x.id = id := by simpa using hx
      have hxb1 : (x.id == b1.id) = true := by simp [hxeq, hb1]
      simp [findBookById, saveBook, List.find?, hx, hxb1, hb1]
    | false =>
      have hxne : ¬x.id = id := by simpa using hx
      have htail : findBookById xs id = some book := by
        simpa [findBookById, List.find?, hx] using h
      have hxb1 : (x.id == b1.id) = false := by
        simp [hb1]
        exact hxne
      have hrec := ih htail
      simpa [findBookById, saveBook, List.find?, hx, hxb1] using hrec

theorem saveBook_saveBook (books : List Book) (b : Book) :
    saveBook (saveBook books b) b = saveBook books b := by
  unfold saveBook
  rw [List.map_map]
  apply List.map_congr_left
  intro x _
  by_cases hx : x.id = b.id
  · simp [Function.comp, hx]
  · simp [Function.comp, if_neg (by simpa using hx)]

/-! Claim theorems. -/

/-- Claim C1: the claim says a create request by the resolved username
"Darth Vader" fails with Forbidden — not with InternalFailure — at the create
operation (BooksController.create delegating to BooksService.create). On the
code, BooksService.create does throw Forbidden, but BooksController.create's
catch block wraps every exception, Forbidden included, into
InternalServerError; a non-forbidden username with valid title/price succeeds
through both layers. -/
theorem vader_create_forbidden_wrapped_internal :
    BooksService.create demoUsers [] 7 vader (createDtoToPatch demoCreateDto)
      = .error (.ForbiddenException "Darth Vader is not allowed to publish Wookie books.")
    ∧ BooksController.create demoUsers [] 7 (some vader) demoCreateDto
      = .error (.InternalServerErrorException "An error occurred while creating the book")
    ∧ BooksService.create demoUsers [] 7 luke (createDtoToPatch demoCreateDto)
      = .ok (lukeBook, [lukeBook])
    ∧ BooksController.create demoUsers [] 7 (some luke) demoCreateDto
      = .ok (lukeBook, [lukeBook]) :=
  ⟨rfl, rfl, rfl, rfl⟩

/-- Claim C2: the claim says a non-owner update fails with Unauthorized and
that this outcome is not conflated with InternalFailure at the handler. On the
code, BooksService.update does throw Unauthorized, but BooksController.update's
catch block rethrows only BadRequest and NotFound and wraps Unauthorized into
InternalServerError; the owner's update succeeds with the supplied partial
fields merged. -/
theorem nonowner_update_unauthorized_conflated :
    BooksService.update [bookOne] userB 1 (updateDtoToPatch titleDto)
      = .error (.UnauthorizedException "You are not authorized to update this book")
    ∧ BooksController.update [bookOne] (some userB) 1 titleDto
      = .error (.InternalServerErrorException "An error occurred while updating the book")
    ∧ BooksService.update [bookOne] userA 1 (updateDtoToPatch titleDto)
      = .ok (bookOneRetitled, [bookOneRetitled])
    ∧ BooksController.update [bookOne] (some userA) 1 titleDto
      = .ok (bookOneRetitled, [bookOneRetitled]) :=
  ⟨rfl, rfl, rfl, rfl⟩

/-- Claim C3: the claim says every operation that stores a user password
persists a salted one-way hash, never the plaintext. On the code,
UsersService.create does persist `bcrypt.hash` of the plaintext, but
UsersService.update writes the supplied password column verbatim: updating the
profile with password "newpassword123" persists exactly the plaintext
"newpassword123", which is not the collaborator's digest of it. -/
theorem profile_update_persists_plaintext :
    UsersService.create demoHash [] 1
        { username := some "bob", password := some "pw0", authorPseudonym := some "bob" }
      = .ok (bob, [bob])
    ∧ bob.password = demoHash "pw0"
    ∧ UsersService.update [bob] 1 { password := some "newpassword123" }
      = .ok ({ id := 1, username := "bob", password := "newpassword123", authorPseudonym := "bob" },
             [{ id := 1, username := "bob", password := "newpassword123", authorPseudonym := "bob" }])
    ∧ ("newpassword123" : String) ≠ demoHash "newpassword123" :=
  ⟨rfl, rfl, rfl, by decide⟩

/-- Claim C4: the claim says registration (POST /users) requires no bearer
credential. On the code, the class-level `@UseGuards(JwtStrategy)` on
UsersController covers the createUser route, so a registration request with a
valid body but no Authorization header is rejected with Unauthenticated before
the handler runs, although the handler itself would create the user. -/
theorem register_blocked_without_bearer :
    postUsersRoute (fun _ => none) demoHash [] 1 none { username := "alice", password := "pw" }
      = .error (.UnauthorizedException "Authorization token is missing or invalid")
    ∧ UsersController.createUser demoHash [] 1 { username := "alice", password := "pw" }
      = .ok ({ id := 1, username := "alice", password := "bcrypt$pw", authorPseudonym := "alice" },
             [{ id := 1, username := "alice", password := "bcrypt$pw", authorPseudonym := "alice" }]) :=
  ⟨rfl, rfl⟩

/-- Claim C5 counterexample: the claim says the stored author after an owner
update equals the author before it even when the update payload supplies a
different author. On the code, `Object.assign(book, bookData)` copies a
supplied author field, so a service-level payload carrying userB overwrites
bookOne's author userA. -/
theorem service_update_overwrites_author :
    bookOne.author = some userA
    ∧ BooksService.update [bookOne] userA 1 { author := some userB }
      = .ok (bookOneReauthored, [bookOneReauthored])
    ∧ bookOneReauthored.author = some userB
    ∧ some userB ≠ some userA :=
  ⟨rfl, rfl, rfl, by decide⟩

/-- Claim C5 (amended): for every existing book and every owner update whose
payload comes through the typed UpdateBookDto — which can carry only title,
description, price and coverImage, neither an author nor the publication
flag — the update succeeds with the merged record, the stored author reference
is unchanged, and so is the publication flag; the author is only overwritten
when a payload carries one at the BooksService layer directly. -/
theorem dto_update_preserves_author (books : List Book) (user : User) (id : Nat)
    (dto : UpdateBookDto) (book : Book) (a : User)
    (hfind : findBookById books id = some book) (hauth : book.author = some a)
    (hown : a.id = user.id) :
    BooksService.update books user id (updateDtoToPatch dto)
      = .ok (mergeBook book (updateDtoToPatch dto),
             saveBook books (mergeBook book (updateDtoToPatch dto)))
    ∧ (mergeBook book (updateDtoToPatch dto)).author = book.author
    ∧ (mergeBook book (updateDtoToPatch dto)).isPublished = book.isPublished := by
  refine ⟨?_, ?_, ?_⟩
  · simp [BooksService.update, hfind, hauth, hown]
  · simp [mergeBook, updateDtoToPatch]
  · simp [mergeBook, updateDtoToPatch]

/-- Claim C5 witness: the owner userA updates bookOne with a retitling DTO;
the author and publication flag are untouched. -/
theorem dto_update_preserves_author_witness :
    BooksService.update [bookOne] userA 1 (updateDtoToPatch titleDto)
      = .ok (mergeBook bookOne (updateDtoToPatch titleDto),
             saveBook [bookOne] (mergeBook bookOne (updateDtoToPatch titleDto)))
    ∧ (mergeBook bookOne (updateDtoToPatch titleDto)).author = bookOne.author
    ∧ (mergeBook bookOne (updateDtoToPatch titleDto)).isPublished = bookOne.isPublished :=
  dto_update_preserves_author [bookOne] userA 1 titleDto bookOne userA rfl rfl rfl

/-- Claim C6: for every credential store, authenticate fails with
Unauthenticated carrying the identical error and message — the literal
Unauthorized("Invalid username or password") — both when the username is
absent from the store and when it is present but the password check returns
false, so the two causes are indistinguishable to the caller. -/
theorem login_failures_indistinguishable (bcryptCompare : String → String → Bool)
    (users : List User) (username pass : String) :
    (users.find? (fun u => u.username == username) = none →
      AuthService.validateUser bcryptCompare users username pass
        = .error (.UnauthorizedException "Invalid username or password"))
    ∧ (∀ u, users.find? (fun u => u.username == username) = some u →
        bcryptCompare pass u.password = false →
        AuthService.validateUser bcryptCompare users username pass
          = .error (.UnauthorizedException "Invalid username or password")) := by
  constructor
  · intro h
    unfold AuthService.validateUser
    rw [h]
  · intro u h hv
    simp [AuthService.validateUser, h, hv]

/-- Claim C6 witness: against a store holding only bob, the unknown username
"ghost" and bob with a wrong password produce the identical error value. -/
theorem login_failures_indistinguishable_witness :
    AuthService.validateUser demoCompare [bob] "ghost" "pw0"
      = .error (.UnauthorizedException "Invalid username or password")
    ∧ AuthService.validateUser demoCompare [bob] "bob" "wrong"
      = .error (.UnauthorizedException "Invalid username or password") :=
  ⟨(login_failures_indistinguishable demoCompare [bob] "ghost" "pw0").1 rfl,
   (login_failures_indistinguishable demoCompare [bob] "bob" "wrong").2 bob rfl rfl⟩

/-- Claim C7: the filtered listing with zero filters returns every book row
regardless of its publication flag — on a store of one published and one
unpublished book it returns exactly 2 rows — while the simple listing path
with no search term returns only rows whose publication flag is true. -/
theorem empty_filters_return_every_book :
    (∀ books : List Book, BooksService.findAllWithFilters books emptyQuery = books)
    ∧ BooksService.findAllWithFilters [pubBook, unpubBook] emptyQuery = [pubBook, unpubBook]
    ∧ pubBook.isPublished = true
    ∧ unpubBook.isPublished = false
    ∧ (BooksService.findAllWithFilters [pubBook, unpubBook] emptyQuery).length = 2
    ∧ (∀ books : List Book,
        BooksService.findAll books none = books.filter (fun b => b.isPublished))
    ∧ BooksService.findAll [pubBook, unpubBook] none = [pubBook] := by
  refine ⟨?_, rfl, rfl, rfl, rfl, ?_, rfl⟩
  · intro books
    exact List.filter_eq_self.2 (fun a _ => rfl)
  · intro books
    rfl

/-- Claim C8: the price predicate of the filtered listing is applied only when
both minPrice and maxPrice are present — supplying a single bound leaves the
result identical to supplying no bound — and when both are present it keeps
exactly the books whose price lies in the inclusive range; with minPrice=10
and maxPrice=30 over the catalog priced [5, 15, 25, 35], exactly the rows
priced 15 and 25 are returned. -/
theorem price_filter_requires_both_bounds :
    (∀ (t ap ip : Option String) (m : Int) (books : List Book),
      BooksService.findAllWithFilters books
          { title := t, authorPseudonym := ap, isPublished := ip, minPrice := some m }
        = BooksService.findAllWithFilters books
          { title := t, authorPseudonym := ap, isPublished := ip })
    ∧ (∀ (t ap ip : Option String) (M : Int) (books : List Book),
      BooksService.findAllWithFilters books
          { title := t, authorPseudonym := ap, isPublished := ip, maxPrice := some M }
        = BooksService.findAllWithFilters books
          { title := t, authorPseudonym := ap, isPublished := ip })
    ∧ (∀ (m M : Int) (books : List Book),
      BooksService.findAllWithFilters books { minPrice := some m, maxPrice := some M }
        = books.filter (fun b => decide (m ≤ b.price) && decide (b.price ≤ M)))
    ∧ BooksService.findAllWithFilters priceCatalog { minPrice := some 10, maxPrice := some 30 }
        = [bookPriced 2 15, bookPriced 3 25] := by
  refine ⟨?_, ?_, ?_, rfl⟩
  · intro t ap ip m books
    rfl
  · intro t ap ip M books
    rfl
  · intro m M books
    rfl

/-- Claim C9: for every book owned by the acting user, unpublish
(BooksService.remove) applied twice is idempotent: both calls succeed, the
publication flag is false after each, and the second call returns the same
record and leaves the store exactly as the first call left it. -/
theorem unpublish_twice_idempotent (books : List Book) (user : User) (id : Nat)
    (book : Book) (a : User) (hfind : findBookById books id = some book)
    (hauth : book.author = some a) (hown : a.id = user.id) :
    BooksService.remove books user id
      = .ok ({ book with isPublished := false },
             saveBook books { book with isPublished := false })
    ∧ ({ book with isPublished := false } : Book).isPublished = false
    ∧ BooksService.remove (saveBook books { book with isPublished := false }) user id
      = .ok ({ book with isPublished := false },
             saveBook books { book with isPublished := false }) := by
  refine ⟨?_, rfl, ?_⟩
  · simp [BooksService.remove, hfind, hauth, hown]
  · have hfind2 : findBookById (saveBook books { book with isPublished := false }) id
        = some { book with isPublished := false } :=
      findBookById_saveBook_self hfind rfl
    rw [hauth] at hfind2
    simp [BooksService.remove, hauth, hfind2, hown, saveBook_saveBook]

/-- Claim C9 witness: userA unpublishes bookOne twice; both calls succeed with
the flag false and the second changes nothing. -/
theorem unpublish_twice_idempotent_witness :
    BooksService.remove [bookOne] userA 1
      = .ok ({ bookOne with isPublished := false },
             saveBook [bookOne] { bookOne with isPublished := false })
    ∧ ({ bookOne with isPublished := false } : Book).isPublished = false
    ∧ BooksService.remove (saveBook [bookOne] { bookOne with isPublished := false }) userA 1
      = .ok ({ bookOne with isPublished := false },
             saveBook [bookOne] { bookOne with isPublished := false }) :=
  unpublish_twice_idempotent [bookOne] userA 1 bookOne userA rfl rfl rfl

/-- Claim C10: for every existing book whose author reference is null, both
update and unpublish fail with Unauthorized — not NotFound — for every acting
user and payload, so an authorless book cannot be mutated through these
paths. -/
theorem authorless_book_mutations_unauthorized (books : List Book) (user : User)
    (id : Nat) (bookData : BookPatch) (book : Book)
    (hfind : findBookById books id = some book) (hnone : book.author = none) :
    BooksService.update books user id bookData
      = .error (.UnauthorizedException "You are not authorized to update this book")
    ∧ BooksService.remove books user id
      = .error (.UnauthorizedException "You are not authorized to unpublish this book") := by
  constructor
  · simp [BooksService.update, hfind, hnone]
  · simp [BooksService.remove, hfind, hnone]

/-- Claim C10 witness: the authorless orphanBook can be neither updated nor
unpublished, by any user, with both failures being Unauthorized. -/
theorem authorless_book_mutations_unauthorized_witness :
    BooksService.update [orphanBook] userA 3 { title := some "X" }
      = .error (.UnauthorizedException "You are not authorized to update this book")
    ∧ BooksService.remove [orphanBook] userA 3
      = .error (.UnauthorizedException "You are not authorized to unpublish this book") :=
  authorless_book_mutations_unauthorized [orphanBook] userA 3 { title := some "X" }
    orphanBook rfl rfl
